import Mathlib

/-
Verification development for the Gconnect chat repository.

The embedded code comes from two sources:
  * src/index.html — the realtime chat client (conversation id derivation,
    message lifecycle Sent / Delivered / Seen, reply threading, deletion,
    subscription management, send handler);
  * src/server.js — the LLM-forwarding proxy (prepareMessages).

JavaScript strings are modelled as Lean String values; the default JS
array sort comparator (lexicographic comparison of code units) is modelled
by an explicit boolean comparison on the underlying character lists, so
that every definition is executable and kernel-reducible.
-/

namespace Gconnect

set_option maxRecDepth 8000

/-- Lexicographic boolean comparison of character lists, modelling the
default JavaScript string comparison used by Array.prototype.sort. -/
def charsLe : List Char → List Char → Bool
  | [], _ => true
  | _ :: _, [] => false
  | x :: xs, y :: ys => if x = y then charsLe xs ys else decide (x < y)

/-- The order on strings used when the client sorts user ids. -/
def jsLe (a b : String) : Prop := charsLe a.data b.data = true

instance jsLe.decRel : DecidableRel jsLe := fun a b => by
  unfold jsLe; infer_instance

theorem charsLe_total (a b : List Char) : charsLe a b = true ∨ charsLe b a = true := by
  induction a generalizing b with
  | nil => left; rfl
  | cons x xs ih =>
    cases b with
    | nil => right; rfl
    | cons y ys =>
      by_cases h : x = y
      · subst h
        rcases ih ys with h1 | h1
        · left; simp [charsLe, h1]
        · right; simp [charsLe, h1]
      · rcases lt_or_gt_of_ne h with hlt | hgt
        · left; simp [charsLe, h, hlt]
        · right; simp [charsLe, Ne.symm h, hgt]

theorem charsLe_trans (a b c : List Char) (hab : charsLe a b = true)
    (hbc : charsLe b c = true) : charsLe a c = true := by
  induction a generalizing b c with
  | nil => rfl
  | cons x xs ih =>
    cases b with
    | nil => simp [charsLe] at hab
    | cons y ys =>
      cases c with
      | nil => simp [charsLe] at hbc
      | cons z zs =>
        by_cases hxy : x = y
        · subst hxy
          by_cases hyz : x = z
          · subst hyz
            simp only [charsLe, if_pos rfl] at hab hbc ⊢
            exact ih ys zs hab hbc
          · simp only [charsLe, if_pos rfl] at hab
            simp only [charsLe, if_neg hyz, decide_eq_true_eq] at hbc ⊢
            exact hbc
        · simp only [charsLe, if_neg hxy, decide_eq_true_eq] at hab
          by_cases hyz : y = z
          · subst hyz
            simp only [charsLe, if_neg hxy, decide_eq_true_eq]
            exact hab
          · simp only [charsLe, if_neg hyz, decide_eq_true_eq] at hbc
            have hxz : x < z := lt_trans hab hbc
            simp [charsLe, ne_of_lt hxz, hxz]

theorem charsLe_antisymm (a b : List Char) (hab : charsLe a b = true)
    (hba : charsLe b a = true) : a = b := by
  induction a generalizing b with
  | nil =>
    cases b with
    | nil => rfl
    | cons y ys => simp [charsLe] at hba
  | cons x xs ih =>
    cases b with
    | nil => simp [charsLe] at hab
    | cons y ys =>
      by_cases hxy : x = y
      · subst hxy
        simp only [charsLe, if_pos rfl] at hab hba
        rw [ih ys hab hba]
      · simp only [charsLe, if_neg hxy, decide_eq_true_eq] at hab
        simp only [charsLe, if_neg (Ne.symm hxy), decide_eq_true_eq] at hba
        exact absurd hab (lt_asymm hba)

instance : IsTotal String jsLe := ⟨fun a b => charsLe_total a.data b.data⟩

instance : IsTrans String jsLe := ⟨fun a b c => charsLe_trans a.data b.data c.data⟩

instance : IsAntisymm String jsLe :=
  ⟨fun a b h1 h2 => by
    cases a; cases b
    exact congrArg String.mk (charsLe_antisymm _ _ h1 h2)⟩

/-- Model of the JavaScript String.prototype.trim call used by the send
handler (messageInput.value.trim()): strip whitespace from both ends. -/
def jsTrim (s : String) : String :=
  String.mk (((s.data.dropWhile Char.isWhitespace).reverse.dropWhile Char.isWhitespace).reverse)

/-- Model of the JavaScript slice(0, n) call on a string. -/
def jsSlice (n : Nat) (s : String) : String := String.mk (s.data.take n)

/-- Message delivery status, index.html: Sent at append time, Delivered
after the append is acknowledged, Seen set by a recipient. -/
inductive Status
  | Sent
  | Delivered
  | Seen
deriving DecidableEq

/-- Reply reference stored inline on a message (the replyTo field built by
handleReplyClick in index.html line 307). -/
structure ReplyRef where
  key : String
  text : String
  senderName : String
deriving DecidableEq

/-- A chat message as built by the send handler, index.html line 300. -/
structure Message where
  senderId : String
  senderName : String
  senderPic : String
  text : String
  timestamp : Nat
  status : Status
  replyTo : Option ReplyRef := none
deriving DecidableEq

/-- A partial store update: the list of field name / value pairs passed to
a database ref update call. -/
structure StatusUpdate where
  fields : List (String × String)
deriving DecidableEq

/-- Canonical conversation id from a list of member ids, index.html lines
233 and 337: map to uid, sort with the default JS comparator, join with
an underscore separator. -/
def canonicalId (memberIds : List String) : String :=
  String.intercalate "_" (List.insertionSort jsLe memberIds)

/-- Direct conversation id, index.html line 233: chatUsers is the list
[other, self], so the sorted ids of the two participants are joined. -/
def resolveDirect (selfId otherId : String) : String :=
  canonicalId [otherId, selfId]

/-- Group conversation id from the full member list, index.html line 337. -/
def groupIdOf (memberIds : List String) : String :=
  canonicalId memberIds

/-- Group id as assembled by createGroupBtn.onclick, index.html lines
336 to 337: the selected member ids with the creator appended. -/
def createGroupId (selectedIds : List String) (creatorId : String) : String :=
  groupIdOf (selectedIds ++ [creatorId])

theorem canonicalId_perm {l₁ l₂ : List String} (h : l₁.Perm l₂) :
    canonicalId l₁ = canonicalId l₂ := by
  unfold canonicalId
  congr 1
  exact List.eq_of_perm_of_sorted
    (((List.perm_insertionSort jsLe l₁).trans h).trans (List.perm_insertionSort jsLe l₂).symm)
    (List.sorted_insertionSort jsLe l₁) (List.sorted_insertionSort jsLe l₂)

/-- C2: direct-conversation id resolution is deterministic and symmetric:
resolveDirect a b equals resolveDirect b a for every pair of ids, and on
the concrete pair u1, u2 both orders yield the id u1_u2. -/
theorem resolveDirect_symmetric :
    (∀ a b : String, resolveDirect a b = resolveDirect b a) ∧
    resolveDirect "u1" "u2" = "u1_u2" ∧
    resolveDirect "u2" "u1" = "u1_u2" := by
  refine ⟨fun a b => canonicalId_perm (List.Perm.swap a b []), by decide, by decide⟩

/-- C3: the group conversation id is an order-independent function of the
member-id list: any two member lists that are permutations of each other
derive the identical group id. -/
theorem groupId_perm_invariant :
    ∀ l₁ l₂ : List String, l₁.Perm l₂ → groupIdOf l₁ = groupIdOf l₂ :=
  fun _ _ h => canonicalId_perm h

/-- Witness for C3 at concrete member lists: the ids u2, u1, u3 in two
different orders (one of them built as selected members plus creator)
derive the same group id. -/
theorem groupId_perm_invariant_witness :
    groupIdOf ["u2", "u1", "u3"] = createGroupId ["u1", "u3"] "u2" :=
  groupId_perm_invariant ["u2", "u1", "u3"] ["u1", "u3", "u2"] (by decide)

/-- Seen gate from loadMessages, index.html lines 268 to 269: a Seen
status update is issued only when the message is not a message of the
local user (senderId differs from the local uid) and the observed status
is not already Seen. -/
def seenGate (localUid : String) (m : Message) : Bool :=
  (m.senderId != localUid) && (m.status != Status.Seen)

/-- One render step of loadMessages for a single message, index.html line
269: when the gate passes, issue a store update carrying exactly the
status field set to Seen and display the message with local status Seen;
otherwise issue nothing and display the message unchanged. -/
def loadStep (localUid : String) (m : Message) : Option StatusUpdate × Message :=
  if seenGate localUid m then
    (some ⟨[("status", "Seen")]⟩, { m with status := Status.Seen })
  else
    (none, m)

/-- C4: the Seen transition is gated by the mine-check: a store update is
issued exactly when the sender differs from the local user and the
observed status is not already Seen; when issued, the update is restricted
to the status field; a client observing its own outgoing message never
issues the update. -/
theorem seen_update_gated :
    (∀ uid m, ((loadStep uid m).1).isSome = true ↔ m.senderId ≠ uid ∧ m.status ≠ Status.Seen) ∧
    (∀ uid m u, (loadStep uid m).1 = some u → u.fields = [("status", "Seen")]) ∧
    (∀ uid m, m.senderId = uid → (loadStep uid m).1 = none) := by
  refine ⟨fun uid m => ?_, fun uid m u hu => ?_, fun uid m h => ?_⟩
  · by_cases h1 : m.senderId = uid <;> by_cases h2 : m.status = Status.Seen <;>
      simp [loadStep, seenGate, h1, h2, bne_iff_ne]
  · by_cases hg : seenGate uid m = true
    · simp only [loadStep, if_pos hg] at hu
      injection hu with h
      rw [← h]
    · simp only [loadStep, if_neg hg] at hu
      cases hu
  · simp [loadStep, seenGate, h]

/-- Concrete outgoing message of user u1, used as evaluation input. -/
def ownMsg : Message :=
  { senderId := "u1", senderName := "A", senderPic := "", text := "hi", timestamp := 100, status := Status.Delivered }

/-- Witness for C4: a client observing its own outgoing message (local uid
u1 equal to the sender uid) issues no status update. -/
theorem seen_update_gated_witness : (loadStep "u1" ownMsg).1 = none :=
  seen_update_gated.2.2 "u1" ownMsg rfl

/-- Status-affecting store writes that the clients issue for one message.
The deliveredAck event is the unconditional post-append callback of the
send handler, index.html line 304; a seenAttempt event is the gated
recipient write of loadMessages, index.html line 269, recorded together
with the uid of the viewing client and the uid of the message sender. -/
inductive StatusEvent
  | deliveredAck
  | seenAttempt (viewerUid senderUid : String)
deriving DecidableEq

/-- Effect of one status write on the stored status: the delivered ack
writes Delivered unconditionally; a seen attempt writes Seen only when the
viewer is not the sender and the status it observes is not already Seen. -/
def applyStatusEvent (st : Status) : StatusEvent → Status
  | StatusEvent.deliveredAck => Status.Delivered
  | StatusEvent.seenAttempt viewer sender =>
      if (sender != viewer) && (st != Status.Seen) then Status.Seen else st

/-- Run an interleaving of status writes on a message freshly appended
with status Sent, index.html line 300. -/
def runStatusEvents (events : List StatusEvent) : Status :=
  events.foldl applyStatusEvent Status.Sent

/-- C1: evaluation of the code at the failing interleaving. A message is
appended with status Sent; recipient client b (distinct from sender a)
observes it and writes Seen; then the post-append acknowledgement callback
of the sending client runs and unconditionally writes Delivered, moving
the message from Seen back to Delivered — a downgrade the claim rules out
for every interleaving. -/
theorem status_seen_downgrade :
    runStatusEvents [StatusEvent.seenAttempt "b" "a"] = Status.Seen ∧
    runStatusEvents [StatusEvent.seenAttempt "b" "a", StatusEvent.deliveredAck]
      = Status.Delivered := by
  exact ⟨by decide, by decide⟩

/-- Subscription bookkeeping: the message paths and typing paths that
currently have a value listener attached. -/
structure Subs where
  msgPaths : List String
  typingPaths : List String
deriving DecidableEq

/-- Message path of the active conversation, index.html line 263. -/
def msgPath (isGroup : Bool) (chatId : String) : String :=
  if isGroup then "groups/" ++ chatId ++ "/chats" else "chats/" ++ chatId

/-- Typing path of the active conversation, index.html line 248. -/
def typingPath (chatId : String) : String := "typing/" ++ chatId

/-- Listener bookkeeping effect of openChat, index.html lines 230 to 253:
currentChatId is reassigned to the new conversation first; then
loadMessages calls off() followed by on() on the message path of the NEW
id (index.html lines 264 to 265), and openChat calls off() followed by
on() on the typing path of the NEW id (lines 248 to 249). Listeners
attached for a previously active conversation are untouched. -/
def openChatSubs (st : Subs) (isGroup : Bool) (newChatId : String) : Subs :=
  let p := msgPath isGroup newChatId
  let t := typingPath newChatId
  { msgPaths := (st.msgPaths.filter (fun q => q != p)) ++ [p],
    typingPaths := (st.typingPaths.filter (fun q => q != t)) ++ [t] }

/-- C5: evaluation of the code at the failing input. Opening direct chat a
and then switching to direct chat b leaves the listeners on the message
path and on the typing path of conversation a still attached, because the
off() calls run after currentChatId has already been reassigned and hence
detach only listeners of the new conversation; events of the previously
active conversation are therefore still delivered to the view after the
switch, contrary to the claim. -/
theorem switch_chat_stale_subscription :
    ("chats/a" ∈ (openChatSubs (openChatSubs ⟨[], []⟩ false "a") false "b").msgPaths ∧
     "typing/a" ∈ (openChatSubs (openChatSubs ⟨[], []⟩ false "a") false "b").typingPaths) ∧
    msgPath false "a" = "chats/a" ∧ typingPath "a" = "typing/a" := by
  exact ⟨⟨by decide, by decide⟩, rfl, rfl⟩

/-- A store operation issued by a click handler. -/
inductive StoreOp
  | remove (path key : String)
deriving DecidableEq

/-- Effect of a store remove on the message list at a conversation path,
as seen by every subscriber in the next snapshot. -/
def removeMessage (store : List (String × Message)) (key : String) : List (String × Message) :=
  store.filter (fun e => e.1 != key)

/-- Rendered view a client with the given local uid builds from a
snapshot, index.html lines 265 to 287: every message of the snapshot is
rendered, after the per-message Seen step. -/
def renderView (localUid : String) (store : List (String × Message)) : List (String × Message) :=
  store.map (fun e => (e.1, (loadStep localUid e.2).2))

/-- Delete-for-everyone handler, index.html line 315: issues a store
remove of the message and performs no change of the local rendered view
(the second component, none, records that no local DOM removal happens);
the handler never consults the caller uid. -/
def delForAllClick (callerUid : String) (path key : String) : StoreOp × Option String :=
  (StoreOp.remove path key, none)

/-- C6: delete-for-everyone issues the store remove unconditionally, with
no ownership or authorization check on the caller (the issued operation is
identical for every caller uid), performs no separate local removal, and
for every subscriber — including the deleter — the removed key is absent
from the rendered view produced from the next snapshot. -/
theorem delete_for_everyone_global :
    (∀ c₁ c₂ path key, delForAllClick c₁ path key = delForAllClick c₂ path key) ∧
    (∀ c path key, (delForAllClick c path key).1 = StoreOp.remove path key ∧
      (delForAllClick c path key).2 = none) ∧
    (∀ uid store key, key ∉ (renderView uid (removeMessage store key)).map Prod.fst) := by
  refine ⟨fun _ _ _ _ => rfl, fun _ _ _ => ⟨rfl, rfl⟩, fun uid store key h => ?_⟩
  simp only [renderView, removeMessage, List.map_map, List.mem_map, Function.comp] at h
  obtain ⟨e, he, hkey⟩ := h
  rw [List.mem_filter] at he
  exact absurd hkey (by simpa [bne_iff_ne] using he.2)

/-- Concrete one-message store used as evaluation input. -/
def store1 : List (String × Message) := [("k1", ownMsg)]

/-- Witness for C6: after delete-for-everyone of key k1, the view rendered
from the store no longer contains k1 — evaluated for viewer u9 on the
concrete one-message store. -/
theorem delete_for_everyone_global_witness :
    "k1" ∉ (renderView "u9" (removeMessage store1 "k1")).map Prod.fst :=
  delete_for_everyone_global.2.2 "u9" store1 "k1"

/-- The multi-client system state: the shared store plus, per user id, the
rendered view (the list of message keys currently in the DOM of that
client). -/
structure ChatSystem where
  store : List (String × Message)
  views : String → List String

/-- Delete-for-me handler, index.html line 314: removes the DOM element
carrying the deleted key from the view of the calling client only, and
issues no store operation (second component none). -/
def delForMeClick (sys : ChatSystem) (callerUid : String) (key : String) :
    ChatSystem × Option StoreOp :=
  ({ store := sys.store,
     views := fun u => if u = callerUid then (sys.views callerUid).erase key else sys.views u },
   none)

/-- C7: delete-for-me is purely local: it issues no store mutation, leaves
the store entry unchanged (so the message remains retrievable by the other
participants), removes the key from the rendered view of exactly the
calling user, and leaves the view of every other user unchanged. -/
theorem delete_for_me_local :
    ∀ (sys : ChatSystem) (c k : String),
      (delForMeClick sys c k).2 = none ∧
      (delForMeClick sys c k).1.store = sys.store ∧
      (delForMeClick sys c k).1.views c = (sys.views c).erase k ∧
      (∀ u, u ≠ c → (delForMeClick sys c k).1.views u = sys.views u) := by
  intro sys c k
  refine ⟨rfl, rfl, by simp [delForMeClick], fun u hu => by simp [delForMeClick, hu]⟩

/-- Concrete two-key system used as evaluation input: every client renders
the keys k1 and k2. -/
def sys1 : ChatSystem :=
  { store := [("k1", ownMsg)], views := fun _ => ["k1", "k2"] }

/-- Witness for C7: after user u1 deletes key k1 for themselves, the store
is unchanged and the view of the other user u2 is unchanged, while the
view of u1 no longer holds k1. -/
theorem delete_for_me_local_witness :
    (delForMeClick sys1 "u1" "k1").1.store = sys1.store ∧
    (delForMeClick sys1 "u1" "k1").1.views "u2" = sys1.views "u2" ∧
    (delForMeClick sys1 "u1" "k1").1.views "u1" = (sys1.views "u1").erase "k1" :=
  ⟨(delete_for_me_local sys1 "u1" "k1").2.1,
   (delete_for_me_local sys1 "u1" "k1").2.2.2 "u2" (by decide),
   (delete_for_me_local sys1 "u1" "k1").2.2.1⟩

/-- Reply state built when the user double-clicks a message, index.html
line 307: the replyTo record carries the key, the FULL text of the target
message and the display name of its sender. -/
def handleReplyClick (m : Message) (k : String) : ReplyRef :=
  { key := k, text := m.text, senderName := m.senderName }

/-- Text shown in the reply-preview widget, index.html line 307: the
sender name, a colon and the target body truncated to 50 characters. -/
def replyPreviewText (m : Message) : String :=
  m.senderName ++ ": " ++ jsSlice 50 m.text

/-- Everything the send handler does, index.html lines 298 to 305, as a
record: the message pushed to the store (none when the trimmed input is
empty), the input field content after the handler returns, the reply state
after the handler, the continuation attached for a successful append (the
Delivered status update), the handler attached for a failed append (none:
the code attaches no rejection handler), the retry queue (none exists in
the code) and the optimistic local message copy (none is kept). -/
structure SendEffect where
  appended : Option Message
  inputAfter : String
  replyAfter : Option ReplyRef
  onAppendSuccess : Option StatusUpdate
  onAppendFailure : Option StatusUpdate
  retryQueue : List Message
  localEcho : Option Message
deriving DecidableEq

/-- The send handler, index.html lines 298 to 305. On nonempty trimmed
input it pushes the message with status Sent, clears the input field
synchronously (before the append resolves), resets the reply state, and
attaches only a success continuation that updates the status to
Delivered. -/
def sendClick (uid name pic inputVal : String) (replyTo : Option ReplyRef) (now : Nat) : SendEffect :=
  let txt := jsTrim inputVal
  if txt = "" then
    { appended := none, inputAfter := inputVal, replyAfter := replyTo,
      onAppendSuccess := none, onAppendFailure := none, retryQueue := [], localEcho := none }
  else
    { appended := some { senderId := uid, senderName := name, senderPic := pic, text := txt, timestamp := now, status := Status.Sent, replyTo := replyTo },
      inputAfter := "", replyAfter := none,
      onAppendSuccess := some ⟨[("status", "Delivered")]⟩,
      onAppendFailure := none, retryQueue := [], localEcho := none }

/-- C9: counterexample. On the send of the concrete input hello the
handler appends a message but clears the input field synchronously —
before the append can fail — and attaches no failure handler; so for a
send whose append fails the input is NOT left intact and no error is
surfaced to the caller, contrary to the claim. -/
theorem sendClick_failure_cex :
    (sendClick "u1" "A" "" "hello" none 100).appended.isSome = true ∧
    (sendClick "u1" "A" "" "hello" none 100).inputAfter = "" ∧
    "hello" ≠ "" ∧
    (sendClick "u1" "A" "" "hello" none 100).onAppendFailure = none := by
  refine ⟨by decide, by decide, by decide, by decide⟩

/-- C9 amended: for every send attempt with nonempty trimmed input, the
handler appends exactly one message with status Sent, enqueues no retry,
keeps no optimistic local message copy, attaches no failure handler (an
append failure is not surfaced to the caller), attaches the Delivered
update only as the success continuation, and clears the input
unconditionally at send time — so after a failed append the input field is
empty rather than intact. -/
theorem sendClick_effects :
    ∀ uid name pic inputVal replyTo now, jsTrim inputVal ≠ "" →
      (sendClick uid name pic inputVal replyTo now).appended =
        some { senderId := uid, senderName := name, senderPic := pic, text := jsTrim inputVal, timestamp := now, status := Status.Sent, replyTo := replyTo } ∧
      (sendClick uid name pic inputVal replyTo now).inputAfter = "" ∧
      (sendClick uid name pic inputVal replyTo now).retryQueue = [] ∧
      (sendClick uid name pic inputVal replyTo now).localEcho = none ∧
      (sendClick uid name pic inputVal replyTo now).onAppendFailure = none ∧
      (sendClick uid name pic inputVal replyTo now).onAppendSuccess = some ⟨[("status", "Delivered")]⟩ := by
  intro uid name pic inputVal replyTo now h
  simp [sendClick, h]

/-- Witness for C9 amended at the concrete send of the input hello by
user u1. -/
theorem sendClick_effects_witness :
    (sendClick "u1" "A" "" "hello" none 100).inputAfter = "" ∧
    (sendClick "u1" "A" "" "hello" none 100).retryQueue = [] ∧
    (sendClick "u1" "A" "" "hello" none 100).onAppendFailure = none :=
  ⟨(sendClick_effects "u1" "A" "" "hello" none 100 (by decide)).2.1,
   (sendClick_effects "u1" "A" "" "hello" none 100 (by decide)).2.2.1,
   (sendClick_effects "u1" "A" "" "hello" none 100 (by decide)).2.2.2.2.1⟩

/-- Concrete target message whose body is 60 characters long. -/
def longMsg : Message :=
  { senderId := "u2", senderName := "B", senderPic := "", text := String.mk (List.replicate 60 'a'), timestamp := 0, status := Status.Sent }

/-- C8: counterexample. For a target body of 60 characters the stored
reply reference carries the full 60-character body, not the body truncated
to the 50-character bound that the reply-preview widget uses; so the
stored snippet is not the target body truncated to a bounded preview
length. -/
theorem handleReplyClick_cex :
    (handleReplyClick longMsg "m5").text = longMsg.text ∧
    longMsg.text.length = 60 ∧
    (jsSlice 50 longMsg.text).length = 50 ∧
    (handleReplyClick longMsg "m5").text ≠ jsSlice 50 longMsg.text := by
  refine ⟨rfl, by decide, by decide, by decide⟩

/-- C8 amended: the reply reference carries the key of the target, the
FULL (untruncated) body of the target and the display name of the target
sender; the send handler stores it inline with the new message; and a
later delete-for-everyone of the target leaves every other stored entry —
in particular the reply message and its replyTo field — unchanged, so the
stale snippet remains. -/
theorem handleReplyClick_denormalized :
    (∀ m k, handleReplyClick m k = ⟨k, m.text, m.senderName⟩) ∧
    (∀ uid name pic inputVal rt now msg,
      (sendClick uid name pic inputVal rt now).appended = some msg → msg.replyTo = rt) ∧
    (∀ store targetKey e, e ∈ store → e.1 ≠ targetKey → e ∈ removeMessage store targetKey) := by
  refine ⟨fun m k => rfl, fun uid name pic inputVal rt now msg h => ?_,
    fun store tk e he hne => ?_⟩
  · by_cases ht : jsTrim inputVal = ""
    · simp [sendClick, ht] at h
    · simp only [sendClick, if_neg ht, Option.some.injEq] at h
      rw [← h]
  · simp only [removeMessage, List.mem_filter]
    exact ⟨he, bne_iff_ne.mpr hne⟩

/-- Concrete target message with body lunch?. -/
def lunchMsg : Message :=
  { senderId := "u2", senderName := "B", senderPic := "", text := "lunch?", timestamp := 1, status := Status.Seen }

/-- Concrete reply message referencing target key m5 with the stale
snippet. -/
def replyMsg : Message :=
  { senderId := "u1", senderName := "A", senderPic := "", text := "yes", timestamp := 5, status := Status.Sent, replyTo := some ⟨"m5", "lunch?", "B"⟩ }

/-- Concrete store holding the target m5 and the reply m7. -/
def store2 : List (String × Message) := [("m5", lunchMsg), ("m7", replyMsg)]

/-- Witness for C8 amended: after delete-for-everyone of the target m5,
the reply m7 with its stale reply reference is still present unchanged. -/
theorem handleReplyClick_denormalized_witness :
    ("m7", replyMsg) ∈ removeMessage store2 "m5" :=
  handleReplyClick_denormalized.2.2 store2 "m5" ("m7", replyMsg) (by decide) (by decide)

/-- One role-tagged message in a proxy request body, server.js. -/
structure ChatMsg where
  role : String
  content : String
deriving DecidableEq

/-- Maximum number of messages forwarded to the completion endpoint,
server.js line 22. -/
def MAX_HISTORY : Nat := 20

/-- Default behavioral instruction injected when the incoming list has no
system message, server.js line 23. -/
def DEFAULT_SYSTEM_INSTRUCTION : String :=
  "You are \"Gconnect assistant\", a friendly and helpful conversational assistant. Always respond directly and helpfully to user messages, keeping context from previous messages in this chat. Do not refuse to respond just because a message is short or casual (for example \"hello\"). Never output raw internal JSON, tool calls, or metadata in the assistant response — produce only a natural-language reply (and optionally structured fields like an embedUrl for YouTube). If the user asks about a YouTube video or a YouTube link appears in context, provide a short helpful answer and include the embed URL (https://www.youtube.com/embed/VIDEO_ID) when appropriate. Keep responses concise, polite, and relevant."

/-- First phase of prepareMessages, server.js lines 44 to 49: when no
message with role system is present, prepend the default instruction. -/
def injectSystem (incoming : List ChatMsg) : List ChatMsg :=
  if incoming.any (fun m => m.role == "system") then incoming
  else ⟨"system", DEFAULT_SYSTEM_INSTRUCTION⟩ :: incoming

/-- Second phase of prepareMessages, server.js lines 50 to 60: when the
list exceeds MAX_HISTORY messages, keep the first element followed by the
last MAX_HISTORY minus one elements if the first element is a system
message, and otherwise keep the last MAX_HISTORY elements. -/
def trimHistory : List ChatMsg → List ChatMsg
  | [] => []
  | m0 :: t =>
    if (m0 :: t).length > MAX_HISTORY then
      if m0.role == "system" then
        m0 :: List.drop ((m0 :: t).length - (max 1 MAX_HISTORY - 1)) (m0 :: t)
      else
        List.drop ((m0 :: t).length - MAX_HISTORY) (m0 :: t)
    else m0 :: t

/-- Message preparation of the proxy, server.js lines 43 to 61: inject the
default system instruction when missing, then trim the history. -/
def prepareMessages (incoming : List ChatMsg) : List ChatMsg :=
  trimHistory (injectSystem incoming)

theorem trimHistory_length (msgs : List ChatMsg) :
    (trimHistory msgs).length ≤ MAX_HISTORY := by
  cases msgs with
  | nil => simp [trimHistory, MAX_HISTORY]
  | cons m0 t =>
    simp only [trimHistory]
    have hmax : max 1 MAX_HISTORY - 1 = 19 := by norm_num [MAX_HISTORY]
    by_cases hl : (m0 :: t).length > MAX_HISTORY
    · rw [if_pos hl]
      simp only [List.length_cons, MAX_HISTORY] at hl
      by_cases hs : (m0.role == "system") = true
      · rw [if_pos hs]
        simp only [List.length_cons, List.length_drop, hmax, MAX_HISTORY]
        omega
      · rw [if_neg hs]
        simp only [List.length_cons, List.length_drop, MAX_HISTORY]
        omega
    · rw [if_neg hl]
      simp only [List.length_cons, MAX_HISTORY] at *
      omega

theorem trimHistory_head_system (m0 : ChatMsg) (t : List ChatMsg)
    (hs : (m0.role == "system") = true) :
    (trimHistory (m0 :: t)).head? = some m0 := by
  simp only [trimHistory]
  by_cases hl : (m0 :: t).length > MAX_HISTORY
  · rw [if_pos hl, if_pos hs]
    rfl
  · rw [if_neg hl]
    rfl

/-- C10: counterexample. On the concrete 26-message list whose only system
message sits at position 1 (not leading), the proxy trims the history to
the last 20 incoming messages: the output starts with a user message and
contains no instruction message at all, so trimming does not always
preserve a leading instruction message as the first element of the
output. -/
theorem prepareMessages_cex :
    (prepareMessages (⟨"user", "first"⟩ :: ⟨"system", "custom"⟩ :: List.replicate 24 ⟨"user", "x"⟩)).length = 20 ∧
    (prepareMessages (⟨"user", "first"⟩ :: ⟨"system", "custom"⟩ :: List.replicate 24 ⟨"user", "x"⟩)).head? = some ⟨"user", "x"⟩ ∧
    (prepareMessages (⟨"user", "first"⟩ :: ⟨"system", "custom"⟩ :: List.replicate 24 ⟨"user", "x"⟩)).all (fun m => m.role != "system") = true := by
  refine ⟨by decide, by decide, by decide⟩

/-- C10 amended: for every incoming message list, (a) when no system
message is present the default instruction is prepended and is the first
element of the output, also after trimming; (b) the output never exceeds
MAX_HISTORY (20) messages; (c) when the FIRST incoming message is an
instruction message it is preserved as the first element of the output;
but a system message sitting only at a non-leading position of an
over-long list can be dropped by the trim, as the counterexample shows. -/
theorem prepareMessages_spec :
    (∀ incoming : List ChatMsg,
      incoming.any (fun m => m.role == "system") = false →
      (prepareMessages incoming).head? = some ⟨"system", DEFAULT_SYSTEM_INSTRUCTION⟩) ∧
    (∀ incoming : List ChatMsg, (prepareMessages incoming).length ≤ MAX_HISTORY) ∧
    (∀ (m0 : ChatMsg) (rest : List ChatMsg), m0.role = "system" →
      (prepareMessages (m0 :: rest)).head? = some m0) := by
  refine ⟨fun incoming h => ?_, fun incoming => trimHistory_length (injectSystem incoming),
    fun m0 rest hrole => ?_⟩
  · have hinj : injectSystem incoming = ⟨"system", DEFAULT_SYSTEM_INSTRUCTION⟩ :: incoming := by
      simp [injectSystem, h]
    rw [show prepareMessages incoming = trimHistory (injectSystem incoming) from rfl, hinj]
    exact trimHistory_head_system _ _ (by decide)
  · have hany : (m0 :: rest).any (fun m => m.role == "system") = true := by
      simp [List.any_cons, hrole]
    have hinj : injectSystem (m0 :: rest) = m0 :: rest := by
      simp [injectSystem, hany]
    rw [show prepareMessages (m0 :: rest) = trimHistory (injectSystem (m0 :: rest)) from rfl, hinj]
    exact trimHistory_head_system _ _ (by simp [hrole])

/-- Witness for C10 amended: with 25 user messages and no system message,
the injected default instruction survives trimming as the first output
element; with a leading custom system message followed by 25 user
messages, that leading message stays first. -/
theorem prepareMessages_spec_witness :
    (prepareMessages (List.replicate 25 ⟨"user", "x"⟩)).head? = some ⟨"system", DEFAULT_SYSTEM_INSTRUCTION⟩ ∧
    (prepareMessages (⟨"system", "custom"⟩ :: List.replicate 25 ⟨"user", "x"⟩)).head? = some ⟨"system", "custom"⟩ :=
  ⟨prepareMessages_spec.1 (List.replicate 25 ⟨"user", "x"⟩) (by decide),
   prepareMessages_spec.2.2 ⟨"system", "custom"⟩ (List.replicate 25 ⟨"user", "x"⟩) rfl⟩

end Gconnect
